import Mathlib

/-!
Verification development for the RPM inquiries mailer (`listener.py`).

The Python worker subscribes to Postgres NOTIFY channels, resolves minimal
event payloads into full records, normalizes heterogeneous record shapes,
and sends plain-text notification e-mails through the Microsoft Graph API.
This file is a shallow embedding of the pure decision logic of that code:
Python dict values, the record normalizers, e-mail composition and
classification, the Graph token cache, the payload dispatch of the worker
loop, configuration loading, and the reconnect bookkeeping.
-/

set_option maxRecDepth 4000

namespace RPMMailer

/-- A Python value as it occurs in the records handled by `listener.py`:
`None`, a string, a boolean, or an integer. -/
inductive PyVal where
  | none
  | str (s : String)
  | bool (b : Bool)
  | int (n : Int)
deriving Repr, DecidableEq

/-- Python truthiness of a `PyVal` (`bool(v)`). -/
def PyVal.truthy : PyVal → Bool
  | .none => false
  | .str s => !(s == "")
  | .bool b => b
  | .int n => !(n == 0)

/-- Python `str(v)` / f-string formatting of a `PyVal`. -/
def PyVal.toStr : PyVal → String
  | .none => "None"
  | .str s => s
  | .bool b => if b then "True" else "False"
  | .int n => toString n

/-- A Python dict from column name to value (a `RawRecord` in the spec).
Keys are unique in every dict produced by `json.loads` or row mapping;
operations below implement Python dict semantics on the association list. -/
abbrev PyDict := List (String × PyVal)

/-- Dict lookup: `d[k]` as an `Option` (`None` when the key is absent). -/
def dictLookup : PyDict → String → Option PyVal
  | [], _ => Option.none
  | (k0, v0) :: rest, k => if k0 == k then some v0 else dictLookup rest k

/-- Python `k in d`. -/
def dictContains (d : PyDict) (k : String) : Bool :=
  (dictLookup d k).isSome

/-- Python `d.get(k, default)`. -/
def dictGetD (d : PyDict) (k : String) (dflt : PyVal) : PyVal :=
  (dictLookup d k).getD dflt

/-- Python `d[k] = v`: replaces the value in place when the key exists,
otherwise appends the new entry (insertion order is preserved). -/
def dictSet : PyDict → String → PyVal → PyDict
  | [], k, v => [(k, v)]
  | (k0, v0) :: rest, k, v =>
      if k0 == k then (k, v) :: rest else (k0, v0) :: dictSet rest k v

@[simp] theorem dictLookup_nil (k : String) : dictLookup [] k = Option.none := rfl

@[simp] theorem dictLookup_cons (k0 k : String) (v0 : PyVal) (rest : PyDict) :
    dictLookup ((k0, v0) :: rest) k =
      if k0 == k then some v0 else dictLookup rest k := rfl

@[simp] theorem dictLookup_dictSet_self (d : PyDict) (k : String) (v : PyVal) :
    dictLookup (dictSet d k v) k = some v := by
  induction d with
  | nil => simp [dictSet]
  | cons hd tl ih =>
      obtain ⟨k0, v0⟩ := hd
      by_cases h : k0 = k
      · simp [dictSet, h]
      · simp [dictSet, h, ih]

theorem dictLookup_dictSet_ne (d : PyDict) (k k' : String) (v : PyVal)
    (h : k' ≠ k) : dictLookup (dictSet d k v) k' = dictLookup d k' := by
  induction d with
  | nil => simp [dictSet, Ne.symm h]
  | cons hd tl ih =>
      obtain ⟨k0, v0⟩ := hd
      by_cases h0 : k0 = k
      · subst h0
        simp [dictSet, Ne.symm h]
      · simp [dictSet, h0, ih]

theorem dictSet_of_lookup_eq (d : PyDict) (k : String) (v : PyVal)
    (h : dictLookup d k = some v) : dictSet d k v = d := by
  induction d with
  | nil => simp [dictLookup] at h
  | cons hd tl ih =>
      obtain ⟨k0, v0⟩ := hd
      by_cases h0 : k0 = k
      · subst h0
        simp [dictLookup] at h
        simp [dictSet, h]
      · simp [dictLookup, h0] at h
        simp [dictSet, h0, ih h]

theorem dictContains_dictSet_ne (d : PyDict) (k k' : String) (v : PyVal)
    (h : k' ≠ k) : dictContains (dictSet d k v) k' = dictContains d k' := by
  simp [dictContains, dictLookup_dictSet_ne d k k' v h]

theorem dictGetD_dictSet_ne (d : PyDict) (k k' : String) (v dflt : PyVal)
    (h : k' ≠ k) : dictGetD (dictSet d k v) k' dflt = dictGetD d k' dflt := by
  simp [dictGetD, dictLookup_dictSet_ne d k k' v h]

/-- Embedding of `_normalize_contact_submission_fields` from `listener.py`: copies the
record, combines `first_name`/`last_name` into `name`, synthesizes a
`subject` from `inquiry_type`, and sets `vehicle_id`. -/
def normalizeContactSubmissionFields (record : PyDict) : PyDict :=
  let normalized := record
  let normalized :=
    if dictContains record "first_name" && dictContains record "last_name" then
      dictSet normalized "name"
        (.str (String.trim ((dictGetD record "first_name" (.str "")).toStr ++ " "
          ++ (dictGetD record "last_name" (.str "")).toStr)))
    else if dictContains record "first_name" then
      dictSet normalized "name" (dictGetD record "first_name" (.str ""))
    else if dictContains record "last_name" then
      dictSet normalized "name" (dictGetD record "last_name" (.str ""))
    else normalized
  let normalized :=
    if dictContains record "inquiry_type" then
      dictSet normalized "subject"
        (.str ("Contact Inquiry - " ++ (dictGetD record "inquiry_type" (.str "General")).toStr))
    else dictSet normalized "subject" (.str "Contact Inquiry")
  let normalized :=
    if dictContains record "inquiry_type" then
      dictSet normalized "vehicle_id" (dictGetD record "inquiry_type" (.str "N/A"))
    else dictSet normalized "vehicle_id" (.str "Contact Submission")
  normalized

/-- Embedding of `_normalize_quote_request_fields` from `listener.py`: adds a `subject`
and a `vehicle_id` when absent, derived from `service` and `company`. -/
def normalizeQuoteRequestFields (record : PyDict) : PyDict :=
  let normalized := record
  let normalized :=
    if !(dictContains normalized "subject") then
      dictSet normalized "subject"
        (.str ("Quote Request - " ++ (dictGetD record "service" (.str "Quote Request")).toStr))
    else normalized
  let normalized :=
    if !(dictContains normalized "vehicle_id") then
      let company := dictGetD record "company" (.str "")
      let service := dictGetD record "service" (.str "")
      dictSet normalized "vehicle_id"
        (if company.truthy && service.truthy
         then .str (company.toStr ++ " - " ++ service.toStr)
         else .str "N/A")
    else normalized
  normalized

/-- Python `record.get(k, '--')`-style access followed by f-string formatting:
the stored value is formatted with `str` when present, otherwise the
string default is used verbatim. -/
def getFmt (r : PyDict) (k : String) (dflt : String) : String :=
  match dictLookup r k with
  | some v => v.toStr
  | Option.none => dflt

/-- Python `record.get(k) or '--'`-style access: the default is used when the key
is absent or its value is falsy. -/
def getOrFmt (r : PyDict) (k : String) (dflt : String) : String :=
  match dictLookup r k with
  | some v => if v.truthy then v.toStr else dflt
  | Option.none => dflt

/-- The flag `is_quote_request` in `send_email`: the record has both a `company`
and a `service` key. -/
def isQuoteRequest (record : PyDict) : Bool :=
  dictContains record "company" && dictContains record "service"

/-- The flag `is_contact_submission` in `send_email`: the record has an
`inquiry_type` key and at least one of `first_name`/`last_name`. -/
def isContactSubmission (record : PyDict) : Bool :=
  dictContains record "inquiry_type" &&
    (dictContains record "first_name" || dictContains record "last_name")

/-- A repeated character, for the `"-" * len(header)` underline. -/
def dashLine (n : Nat) : String :=
  String.mk (List.replicate n (Char.ofNat 45))

/-- The subject, header and body lines chosen by `send_email` for a record:
contact submission checked first, then quote request, then generic inquiry. -/
def classifyEmail (record : PyDict) : String × String × List String :=
  if isContactSubmission record then
    let n := normalizeContactSubmissionFields record
    ("🆕 New Contact Submission Received", "New Contact Submission Received",
      [ "Name         : " ++ getFmt n "name" "--",
        "Email        : " ++ getFmt n "email" "--",
        "Phone        : " ++ getOrFmt n "phone" "--",
        "Inquiry Type : " ++ getFmt n "inquiry_type" "--",
        "Message      : " ++ getFmt n "message" "--",
        "Created At   : " ++ getFmt n "created_at" "--" ])
  else if isQuoteRequest record then
    ("🆕 New Quote Request Received", "New Quote Request Received",
      [ "Name         : " ++ getFmt record "name" "--",
        "Email        : " ++ getFmt record "email" "--",
        "Phone        : " ++ getOrFmt record "phone" "--",
        "Company      : " ++ getFmt record "company" "--",
        "Service      : " ++ getFmt record "service" "--",
        "Message      : " ++ getFmt record "message" "--",
        "Consent      : " ++
          (if (dictGetD record "consent" .none).truthy then "Yes" else "No"),
        "Current Ships: " ++ getOrFmt record "current_shipments" "N/A",
        "Expected Ships: " ++ getOrFmt record "expected_shipments" "N/A",
        "Services     : " ++ getOrFmt record "services" "N/A",
        "Created At   : " ++ getFmt record "created_at" "--",
        "Status       : " ++ getFmt record "status" "--" ])
  else
    ("🆕 New Inquiry Received", "New Inquiry Received",
      [ "Name        : " ++ getFmt record "name" "--",
        "Email       : " ++ getFmt record "email" "--",
        "Phone       : " ++ getOrFmt record "phone" "--",
        "Subject     : " ++ getFmt record "subject" "--",
        "Message     : " ++ getFmt record "message" "--",
        "Vehicle ID  : " ++ getOrFmt record "vehicle_id" "N/A",
        "Created At  : " ++ getFmt record "created_at" "--",
        "Status      : " ++ getFmt record "status" "--" ])

/-- The subject and plain-text body that `send_email` builds for a record
(the part of the function before the HTTP request). -/
def composeEmail (record : PyDict) : String × String :=
  let c := classifyEmail record
  let subject := c.1
  let header := c.2.1
  let bodyLines := c.2.2
  (subject, header ++ "\n" ++ dashLine header.length ++ "\n"
    ++ String.intercalate "\n" bodyLines)

/-- A JSON value, for the outbound Graph `sendMail` request body. -/
inductive Json where
  | jnull
  | jstr (s : String)
  | jbool (b : Bool)
  | jobj (fields : List (String × Json))
  | jarr (elems : List Json)

/-- Lookup of a field in a JSON object. -/
def Json.field : Json → String → Option Json
  | .jobj fields, k =>
      match fields.find? (fun p => p.1 == k) with
      | some p => some p.2
      | Option.none => Option.none
  | _, _ => Option.none

/-- Python serialization of an optional string (`None` becomes JSON null). -/
def optJson : Option String → Json
  | Option.none => .jnull
  | some s => .jstr s

/-- Python f-string formatting of an optional string (`None` prints as
`None`), used for URLs built from config fields. -/
def optFmt : Option String → String
  | Option.none => "None"
  | some s => s

/-- The JSON body that `send_email` posts to Graph `sendMail`. Note the
`saveToSentItems` field carries the Python string `"false"`, not a JSON
boolean. -/
def sendMailPayload (subject bodyText : String) (to_email : Option String) : Json :=
  .jobj [
    ("message", .jobj [
      ("subject", .jstr subject),
      ("body", .jobj [("contentType", .jstr "Text"), ("content", .jstr bodyText)]),
      ("toRecipients", .jarr [.jobj [("emailAddress", .jobj [("address", optJson to_email)])]])
    ]),
    ("saveToSentItems", .jstr "false")
  ]

/-- An outbound HTTP request as built by `send_email`. -/
structure MailRequest where
  url : String
  authHeader : String
  contentType : String
  body : Json

/-- The full `sendMail` request that `send_email` submits for a record,
given the tenant's sender and recipient addresses and a bearer token. -/
def buildSendMailRequest (from_email to_email : Option String)
    (token : String) (record : PyDict) : MailRequest :=
  let c := composeEmail record
  { url := "https://graph.microsoft.com/v1.0/users/" ++ optFmt from_email ++ "/sendMail"
    authHeader := "Bearer " ++ token
    contentType := "application/json"
    body := sendMailPayload c.1 c.2 to_email }

/-- A cached Graph token: the `{"val": ..., "exp": ...}` entries of the
`_tokens` dict in `listener.py`. Time is modelled in seconds. -/
structure TokenInfo where
  val : String
  exp : Int
deriving Repr, DecidableEq

/-- The `_tokens` cache, keyed by identity-tenant id. -/
def TokenCache := String → Option TokenInfo

/-- A successful token-endpoint response body:
`access_token` plus an optional `expires_in`. -/
structure TokenResponse where
  access_token : String
  expires_in : Option Int
deriving Repr, DecidableEq

/-- The observable result of one `graph_token` call: the returned token,
the cache afterwards, and how many network requests were made. -/
structure TokenResult where
  token : String
  cache : TokenCache
  requests : Nat

/-- The refresh path of `graph_token`: one network request, then the cache
entry for the tenant is overwritten with the new token and expiry
`now + int(body.get("expires_in", 3600))`. -/
def refreshToken (cache : TokenCache) (tenant_id : String) (now : Int)
    (resp : TokenResponse) : TokenResult :=
  let exp := now + resp.expires_in.getD 3600
  { token := resp.access_token
    cache := fun t => if t = tenant_id then some ⟨resp.access_token, exp⟩ else cache t
    requests := 1 }

/-- Embedding of `graph_token` from `listener.py`, as a function of the current cache,
the tenant id, the current time, and the token-endpoint response that a
network request would return: a cached entry with more than 60 seconds of
remaining validity is returned without any request; otherwise the token is
refreshed. -/
def graphToken (cache : TokenCache) (tenant_id : String) (now : Int)
    (resp : TokenResponse) : TokenResult :=
  match cache tenant_id with
  | some token_info =>
      if token_info.exp - now > 60 then
        { token := token_info.val, cache := cache, requests := 0 }
      else refreshToken cache tenant_id now resp
  | Option.none => refreshToken cache tenant_id now resp

/-- An HTTP response from the mail API. -/
structure HttpResponse where
  status : Nat
  text : String
deriving Repr, DecidableEq

/-- A send failure carrying the response status and body (the `HTTPError`
raised by `response.raise_for_status()` in `send_email`). -/
structure SendError where
  status : Nat
  body : String
deriving Repr, DecidableEq

/-- The outcome of the response handling in `send_email`: status 202 is
success; otherwise `response.raise_for_status()` runs, which raises
exactly for statuses 400–599 and is a no-op for every other status. -/
def sendEmailOutcome (resp : HttpResponse) : Except SendError Unit :=
  if resp.status == 202 then .ok ()
  else if 400 ≤ resp.status && resp.status < 600 then .error ⟨resp.status, resp.text⟩
  else .ok ()

/-- What the database interaction inside `fetch_full_record` produced:
an exception anywhere in the fetch, zero matching rows, or a row mapped
to a column→value dict. -/
inductive FetchOutcome where
  | fetchFailed
  | noRow
  | row (record : PyDict)

/-- The table queried by `fetch_full_record`, chosen from the instance
name. -/
def tableFor (instance_name : String) : String :=
  if instance_name == "Instance-2" then "quote_requests"
  else if instance_name == "Instance-3" then "contact_submissions"
  else "inquiries"

/-- Embedding of `fetch_full_record` from `listener.py`: `None` when no row matched and
also when any exception occurred (the whole body is wrapped in
`try/except` returning `None`); a fetched row is normalized according to
the instance's table before being returned. -/
def fetchFullRecord (instance_name : String) (outcome : FetchOutcome) :
    Option PyDict :=
  match outcome with
  | .fetchFailed => Option.none
  | .noRow => Option.none
  | .row record =>
      let table := tableFor instance_name
      if table == "quote_requests" then some (normalizeQuoteRequestFields record)
      else if table == "contact_submissions" then
        some (normalizeContactSubmissionFields record)
      else some record

/-- A call the worker loop makes while handling one notification. -/
inductive WorkerCall where
  | fetchRecord (id : PyVal)
  | sendRecord (record : PyDict)
deriving Repr, DecidableEq

/-- The dispatch in `listen_and_process` for one decoded payload: a payload
with exactly one key, named `id`, is a reference — the full record is
fetched and, when present (and truthy), e-mailed; any other payload is a
legacy record passed to `send_email` directly. `fetch` is the oracle for
what `fetch_full_record` returns on the given id. -/
def handleNotification (payload : PyDict)
    (fetch : PyVal → Option PyDict) : List WorkerCall :=
  if dictContains payload "id" && payload.length == 1 then
    let record_id := dictGetD payload "id" .none
    let record := fetch record_id
    .fetchRecord record_id ::
      (match record with
       | some r => if r.length == 0 then [] else [.sendRecord r]
       | Option.none => [])
  else
    [.sendRecord payload]

/-- One notification as seen by the worker loop, together with the oracles
for what the database fetch and the mail API would answer. -/
structure NotifyEvent where
  payload : PyDict
  fetchOutcome : FetchOutcome
  response : HttpResponse

/-- The logged outcome of handling one notification. Every exception
raised while handling a notification — in particular a send failure — is
caught by the `except` clause inside the notification loop, so handling
always yields an outcome instead of aborting the loop. -/
inductive EventOutcome where
  | emailSent
  | emailFailed (e : SendError)
  | skippedMissing
deriving Repr, DecidableEq

/-- Handling of one notification in `listen_and_process`, including the
`try/except` that catches send failures. -/
def processNotification (instance_name : String) (ev : NotifyEvent) :
    EventOutcome :=
  if dictContains ev.payload "id" && ev.payload.length == 1 then
    match fetchFullRecord instance_name ev.fetchOutcome with
    | some r =>
        if r.length == 0 then .skippedMissing
        else
          match sendEmailOutcome ev.response with
          | .ok _ => .emailSent
          | .error e => .emailFailed e
    | Option.none => .skippedMissing
  else
    match sendEmailOutcome ev.response with
    | .ok _ => .emailSent
    | .error e => .emailFailed e

/-- The notification loop over a stream of events: each event is handled
in turn, failures included, and the loop proceeds to the next event. -/
def processNotifies (instance_name : String) (evs : List NotifyEvent) :
    List EventOutcome :=
  evs.map (processNotification instance_name)

/-- The environment, as read by `os.getenv`. -/
def Env := String → Option String

/-- Python truthiness of an `os.getenv` result: `None` and the empty
string are falsy. -/
def optTruthy : Option String → Bool
  | Option.none => false
  | some s => !(s == "")

/-- The required identity/mail variables of instance 1. -/
def INSTANCE_1_VARS : List String :=
  ["TENANT_ID", "CLIENT_ID", "CLIENT_SECRET", "FROM_EMAIL", "TO_EMAIL"]

/-- The discrete database variables of instance 1. -/
def INSTANCE_1_DB_VARS : List String :=
  ["PGHOST", "PGDATABASE", "PGUSER", "PGPASSWORD"]

/-- The required identity/mail variables of instance 2. -/
def INSTANCE_2_VARS : List String :=
  ["TENANT_ID_2", "CLIENT_ID_2", "CLIENT_SECRET_2", "FROM_EMAIL_2", "TO_EMAIL_2"]

/-- The discrete database variables of instance 2. -/
def INSTANCE_2_DB_VARS : List String :=
  ["PGHOST_2", "PGDATABASE_2", "PGUSER_2", "PGPASSWORD_2"]

/-- The required identity/mail variables of instance 3. -/
def INSTANCE_3_VARS : List String :=
  ["TENANT_ID_3", "CLIENT_ID_3", "CLIENT_SECRET_3", "FROM_EMAIL_3", "TO_EMAIL_3"]

/-- The discrete database variables of instance 3. -/
def INSTANCE_3_DB_VARS : List String :=
  ["PGHOST_3", "PGDATABASE_3", "PGUSER_3", "PGPASSWORD_3"]

/-- The list comprehension `[var for var in vars if not os.getenv(var)]`. -/
def missingVars (env : Env) (vars : List String) : List String :=
  vars.filter (fun v => !(optTruthy (env v)))

/-- The dataclass `InstanceConfig` from `listener.py`. -/
structure InstanceConfig where
  connection_string : Option String
  pg_host : Option String
  pg_database : Option String
  pg_user : Option String
  pg_password : Option String
  tenant_id : Option String
  client_id : Option String
  client_secret : Option String
  from_email : Option String
  to_email : Option String
  instance_name : String
  listen_channel : String
deriving Repr, DecidableEq

/-- The config built for instance 1 in `load_instance_configs`. -/
def mkConfig1 (env : Env) : InstanceConfig :=
  let db_url := env "DATABASE_URL"
  { connection_string := db_url
    pg_host := if optTruthy db_url then Option.none else env "PGHOST"
    pg_database := if optTruthy db_url then Option.none else env "PGDATABASE"
    pg_user := if optTruthy db_url then Option.none else env "PGUSER"
    pg_password := if optTruthy db_url then Option.none else env "PGPASSWORD"
    tenant_id := env "TENANT_ID"
    client_id := env "CLIENT_ID"
    client_secret := env "CLIENT_SECRET"
    from_email := env "FROM_EMAIL"
    to_email := env "TO_EMAIL"
    instance_name := "Instance-1"
    listen_channel := "new_record_channel" }

/-- The config built for instance 2 in `load_instance_configs`. -/
def mkConfig2 (env : Env) : InstanceConfig :=
  let db_url := env "DATABASE_URL_2"
  { connection_string := db_url
    pg_host := if optTruthy db_url then Option.none else env "PGHOST_2"
    pg_database := if optTruthy db_url then Option.none else env "PGDATABASE_2"
    pg_user := if optTruthy db_url then Option.none else env "PGUSER_2"
    pg_password := if optTruthy db_url then Option.none else env "PGPASSWORD_2"
    tenant_id := env "TENANT_ID_2"
    client_id := env "CLIENT_ID_2"
    client_secret := env "CLIENT_SECRET_2"
    from_email := env "FROM_EMAIL_2"
    to_email := env "TO_EMAIL_2"
    instance_name := "Instance-2"
    listen_channel := "quote_request_channel" }

/-- The config built for instance 3 in `load_instance_configs`. -/
def mkConfig3 (env : Env) : InstanceConfig :=
  let db_url := env "DATABASE_URL_3"
  { connection_string := db_url
    pg_host := if optTruthy db_url then Option.none else env "PGHOST_3"
    pg_database := if optTruthy db_url then Option.none else env "PGDATABASE_3"
    pg_user := if optTruthy db_url then Option.none else env "PGUSER_3"
    pg_password := if optTruthy db_url then Option.none else env "PGPASSWORD_3"
    tenant_id := env "TENANT_ID_3"
    client_id := env "CLIENT_ID_3"
    client_secret := env "CLIENT_SECRET_3"
    from_email := env "FROM_EMAIL_3"
    to_email := env "TO_EMAIL_3"
    instance_name := "Instance-3"
    listen_channel := "contact_submission_channel" }

/-- Whether instance 2 is attempted: all its identity/mail variables are
set and either `DATABASE_URL_2` is set or all its discrete DB variables
are. -/
def instance2Configured (env : Env) : Bool :=
  (missingVars env INSTANCE_2_VARS).isEmpty &&
    (optTruthy (env "DATABASE_URL_2") || (missingVars env INSTANCE_2_DB_VARS).isEmpty)

/-- Whether instance 3 is attempted, analogously. -/
def instance3Configured (env : Env) : Bool :=
  (missingVars env INSTANCE_3_VARS).isEmpty &&
    (optTruthy (env "DATABASE_URL_3") || (missingVars env INSTANCE_3_DB_VARS).isEmpty)

/-- Embedding of `load_instance_configs` from `listener.py`: instance 1 is mandatory
and aborts startup (a `RuntimeError`, modelled as `.error`) when its
variables are missing; instances 2 and 3 are appended exactly when fully
configured, and skipped with a warning otherwise. -/
def loadInstanceConfigs (env : Env) : Except String (List InstanceConfig) :=
  let missing_1 := missingVars env INSTANCE_1_VARS
  if !missing_1.isEmpty then
    .error ("Missing required Instance 1 environment variables: "
      ++ String.intercalate ", " missing_1)
  else
    let db_url_1 := env "DATABASE_URL"
    let missing_db_1 := missingVars env INSTANCE_1_DB_VARS
    if !(optTruthy db_url_1) && !missing_db_1.isEmpty then
      .error ("Instance 1: Either DATABASE_URL or individual DB vars required: "
        ++ String.intercalate ", " missing_db_1)
    else
      let configs := [mkConfig1 env]
      let configs :=
        if instance2Configured env then configs ++ [mkConfig2 env] else configs
      let configs :=
        if instance3Configured env then configs ++ [mkConfig3 env] else configs
      .ok configs

/-- The delay branch taken by the `except` handler at the bottom of
`listen_and_process`. -/
inductive RetryKind where
  | gradualDelay
  | expBackoff
deriving Repr, DecidableEq

/-- The constant `max_reconnect_attempts` in `listen_and_process`. -/
def maxReconnectAttempts : Nat := 3

/-- The `except` handler of the outer connection loop: increment the
attempt counter; at or above the threshold, reset the counter and apply
`reconnect_delay = min(reconnect_delay * 1.5, 60)` (exponential backoff);
below it, keep the counter and apply
`reconnect_delay = min(reconnect_delay + 5, 30)`. Returns the new
counter, the new delay, and which branch was taken. -/
def exceptHandler (reconnect_attempts : Nat) (reconnect_delay : ℚ) :
    Nat × ℚ × RetryKind :=
  let a := reconnect_attempts + 1
  if a ≥ maxReconnectAttempts then
    (0, min (reconnect_delay * (3 / 2)) 60, .expBackoff)
  else
    (a, min (reconnect_delay + 5) 30, .gradualDelay)

/-- The branches taken over `n` consecutive connection failures. Each
iteration of the outer `while True` loop begins with
`reconnect_attempts = 0` (listener.py line 506), so the handler always
sees a counter of zero. -/
def failureTrace : Nat → ℚ → List RetryKind
  | 0, _ => []
  | Nat.succ n, d =>
      let s := exceptHandler 0 d
      s.2.2 :: failureTrace n s.2.1

/-- Helper: whether `needle` occurs at the start of `hay`. -/
def leadsWith : List Char → List Char → Bool
  | [], _ => true
  | _ :: _, [] => false
  | a :: as, b :: bs => a == b && leadsWith as bs

/-- Helper: whether `needle` occurs contiguously anywhere in `hay`. -/
def hasSubList (needle : List Char) : List Char → Bool
  | [] => needle.isEmpty
  | c :: rest => leadsWith needle (c :: rest) || hasSubList needle rest

/-- Helper: whether the string `hay` contains the substring `needle`. -/
def strHas (hay needle : String) : Bool :=
  hasSubList needle.toList hay.toList

/-- Helper: a concatenation starting with a nonempty string is nonempty. -/
theorem append_left_ne_empty (a b : String) (h : a.length > 0) : a ++ b ≠ "" := by
  intro heq
  have hlen := congrArg String.length heq
  rw [String.length_append] at hlen
  simp at hlen
  omega

/-- Helper: the subject chosen by `send_email`, by classification case. -/
theorem composeEmail_subject (record : PyDict) :
    (composeEmail record).1 =
      (if isContactSubmission record then "🆕 New Contact Submission Received"
       else if isQuoteRequest record then "🆕 New Quote Request Received"
       else "🆕 New Inquiry Received") := by
  unfold composeEmail classifyEmail
  split_ifs <;> rfl

/-- Helper: the header chosen by `send_email`, by classification case. -/
theorem classifyEmail_header (record : PyDict) :
    (classifyEmail record).2.1 =
      (if isContactSubmission record then "New Contact Submission Received"
       else if isQuoteRequest record then "New Quote Request Received"
       else "New Inquiry Received") := by
  unfold classifyEmail
  split_ifs <;> rfl

/-- C3: classification in `send_email` follows a fixed priority order —
contact submission (`inquiry_type` plus one of `first_name`/`last_name`;
subject contains "Contact") is checked before quote request (`company`
and `service`; subject contains "Quote Request"), and otherwise the
generic inquiry subject (containing "Inquiry") is used; a record matching
both shapes classifies as a contact submission. -/
theorem c3_classification_priority :
    (∀ record : PyDict, isContactSubmission record = true →
      (composeEmail record).1 = "🆕 New Contact Submission Received" ∧
      strHas (composeEmail record).1 "Contact" = true) ∧
    (∀ record : PyDict, isContactSubmission record = false →
        isQuoteRequest record = true →
      (composeEmail record).1 = "🆕 New Quote Request Received" ∧
      strHas (composeEmail record).1 "Quote Request" = true) ∧
    (∀ record : PyDict, isContactSubmission record = false →
        isQuoteRequest record = false →
      (composeEmail record).1 = "🆕 New Inquiry Received" ∧
      strHas (composeEmail record).1 "Inquiry" = true) ∧
    (∀ record : PyDict, isContactSubmission record = true →
        isQuoteRequest record = true →
      (composeEmail record).1 = "🆕 New Contact Submission Received") := by
  refine ⟨?_, ?_, ?_, ?_⟩
  · intro record h1
    have hs : (composeEmail record).1 = "🆕 New Contact Submission Received" := by
      rw [composeEmail_subject, h1]; simp
    rw [hs]
    exact ⟨rfl, by decide⟩
  · intro record h1 h2
    have hs : (composeEmail record).1 = "🆕 New Quote Request Received" := by
      rw [composeEmail_subject, h1, h2]; simp
    rw [hs]
    exact ⟨rfl, by decide⟩
  · intro record h1 h2
    have hs : (composeEmail record).1 = "🆕 New Inquiry Received" := by
      rw [composeEmail_subject, h1, h2]; simp
    rw [hs]
    exact ⟨rfl, by decide⟩
  · intro record h1 _
    rw [composeEmail_subject, h1]
    simp

/-- C3 witness: a record shaped both as a contact submission and as a
quote request classifies as a contact submission; one shaped only as a
quote request gets the quote-request subject. -/
theorem c3_classification_priority_witness :
    (composeEmail [("inquiry_type", .str "General"), ("first_name", .str "Jane"),
        ("company", .str "Acme"), ("service", .str "Freight")]).1 =
      "🆕 New Contact Submission Received" ∧
    (composeEmail [("company", .str "Acme"), ("service", .str "Freight")]).1 =
      "🆕 New Quote Request Received" :=
  ⟨c3_classification_priority.2.2.2
      [("inquiry_type", .str "General"), ("first_name", .str "Jane"),
        ("company", .str "Acme"), ("service", .str "Freight")]
      (by decide) (by decide),
    (c3_classification_priority.2.1
      [("company", .str "Acme"), ("service", .str "Freight")]
      (by decide) (by decide)).1⟩

/-- C5: the normalization and message-construction path is total — for
every record, whatever subset of keys is present, a nonempty subject and
a nonempty body are produced, and missing fields degrade to placeholder
text such as "--" and "N/A", shown here on an empty record, a minimal
quote request, and a minimal contact submission. -/
theorem c5_compose_email_total :
    (∀ record : PyDict,
      (composeEmail record).1 ≠ "" ∧ (composeEmail record).2 ≠ "") ∧
    composeEmail [] =
      ("🆕 New Inquiry Received",
        "New Inquiry Received\n--------------------\nName        : --\nEmail       : --\nPhone       : --\nSubject     : --\nMessage     : --\nVehicle ID  : N/A\nCreated At  : --\nStatus      : --") ∧
    composeEmail [("company", .str "Acme"), ("service", .str "Freight")] =
      ("🆕 New Quote Request Received",
        "New Quote Request Received\n--------------------------\nName         : --\nEmail        : --\nPhone        : --\nCompany      : Acme\nService      : Freight\nMessage      : --\nConsent      : No\nCurrent Ships: N/A\nExpected Ships: N/A\nServices     : N/A\nCreated At   : --\nStatus       : --") ∧
    composeEmail [("inquiry_type", .str "Support"), ("first_name", .str "Jane")] =
      ("🆕 New Contact Submission Received",
        "New Contact Submission Received\n-------------------------------\nName         : Jane\nEmail        : --\nPhone        : --\nInquiry Type : Support\nMessage      : --\nCreated At   : --") := by
  refine ⟨?_, by decide, by decide, by decide⟩
  intro record
  constructor
  · rw [composeEmail_subject]
    split_ifs <;> decide
  · show ¬_
    unfold composeEmail
    intro heq
    have hlen := congrArg String.length heq
    rw [String.length_append, String.length_append, String.length_append,
      String.length_append] at hlen
    have hhead : (classifyEmail record).2.1.length > 0 := by
      rw [classifyEmail_header]
      split_ifs <;> decide
    rw [show ("" : String).length = 0 from rfl] at hlen
    omega

/-- C5 witness: the totality statement applied to a one-key record. -/
theorem c5_compose_email_total_witness :
    (composeEmail [("phone", .str "")]).1 ≠ "" ∧
    (composeEmail [("phone", .str "")]).2 ≠ "" :=
  c5_compose_email_total.1 [("phone", .str "")]

/-- C10: `_normalize_contact_submission_fields` is idempotent — applying
it twice yields the same dict as applying it once, so a contact
submission normalized inside `fetch_full_record` and normalized again
inside `send_email` is unchanged by the second pass. -/
theorem c10_normalize_contact_idempotent (record : PyDict) :
    normalizeContactSubmissionFields (normalizeContactSubmissionFields record) =
      normalizeContactSubmissionFields record := by
  by_cases hfn : dictContains record "first_name" <;>
  by_cases hln : dictContains record "last_name" <;>
  by_cases hit : dictContains record "inquiry_type" <;>
    simp +decide [normalizeContactSubmissionFields, hfn, hln, hit,
      dictContains_dictSet_ne, dictGetD_dictSet_ne, dictLookup_dictSet_ne,
      dictSet_of_lookup_eq]

/-- C1: `graph_token` returns the cached token without any network
request while the cached expiry is more than 60 seconds away; otherwise
it performs one credential-grant request, stores the new token with
expiry `now + expires_in` (3600 when omitted) under the identity-tenant
id, and returns it; two calls inside the validity window make exactly one
request, and a call after crossing the `expiry − 60s` boundary makes a
second request returning the new token. -/
theorem c1_graph_token_cache :
    (∀ (cache : TokenCache) (tenant_id : String) (now : Int)
        (resp : TokenResponse) (ti : TokenInfo),
      cache tenant_id = some ti → ti.exp - now > 60 →
      (graphToken cache tenant_id now resp).token = ti.val ∧
      (graphToken cache tenant_id now resp).requests = 0 ∧
      ∀ t, (graphToken cache tenant_id now resp).cache t = cache t) ∧
    (∀ (cache : TokenCache) (tenant_id : String) (now : Int)
        (resp : TokenResponse),
      (∀ ti, cache tenant_id = some ti → ti.exp - now ≤ 60) →
      (graphToken cache tenant_id now resp).token = resp.access_token ∧
      (graphToken cache tenant_id now resp).requests = 1 ∧
      (graphToken cache tenant_id now resp).cache tenant_id =
        some ⟨resp.access_token, now + resp.expires_in.getD 3600⟩) ∧
    (∀ (cache : TokenCache) (tenant_id : String) (t1 t2 t3 : Int)
        (resp1 resp2 resp3 : TokenResponse),
      cache tenant_id = Option.none →
      t2 < t1 + resp1.expires_in.getD 3600 - 60 →
      t3 ≥ t1 + resp1.expires_in.getD 3600 - 60 →
      let r1 := graphToken cache tenant_id t1 resp1
      let r2 := graphToken r1.cache tenant_id t2 resp2
      let r3 := graphToken r2.cache tenant_id t3 resp3
      r1.requests + r2.requests = 1 ∧
      r2.token = r1.token ∧
      r3.requests = 1 ∧
      r3.token = resp3.access_token) := by
  refine ⟨?_, ?_, ?_⟩
  · intro cache tenant_id now resp ti hc hexp
    simp [graphToken, hc, hexp]
  · intro cache tenant_id now resp hstale
    cases hc : cache tenant_id with
    | none => simp [graphToken, hc, refreshToken]
    | some ti =>
        have : ¬(ti.exp - now > 60) := by
          have := hstale ti hc
          omega
        simp [graphToken, hc, this, refreshToken]
  · intro cache tenant_id t1 t2 t3 resp1 resp2 resp3 hc ht2 ht3
    have h1 : graphToken cache tenant_id t1 resp1 =
        refreshToken cache tenant_id t1 resp1 := by
      simp [graphToken, hc]
    have hcache1 : (refreshToken cache tenant_id t1 resp1).cache tenant_id =
        some ⟨resp1.access_token, t1 + resp1.expires_in.getD 3600⟩ := by
      simp [refreshToken]
    have h2 : graphToken (refreshToken cache tenant_id t1 resp1).cache
        tenant_id t2 resp2 =
        { token := resp1.access_token
          cache := (refreshToken cache tenant_id t1 resp1).cache
          requests := 0 } := by
      rw [graphToken, hcache1]
      have : t1 + resp1.expires_in.getD 3600 - t2 > 60 := by omega
      simp [this]
    have h3exp : ¬((t1 + resp1.expires_in.getD 3600 : Int) - t3 > 60) := by omega
    simp only [h1, h2]
    refine ⟨by simp [refreshToken], by simp [refreshToken], ?_, ?_⟩
    · rw [graphToken, hcache1]
      simp [h3exp, refreshToken]
    · rw [graphToken, hcache1]
      simp [h3exp, refreshToken]

/-- C1 witness: a concrete run — empty cache, token acquired at time 0
with a 3600-second lifetime, reused at time 3000, refreshed at 3541. -/
theorem c1_graph_token_cache_witness :
    let cache0 : TokenCache := fun _ => Option.none
    let r1 := graphToken cache0 "tenantA" 0 ⟨"tokA", some 3600⟩
    let r2 := graphToken r1.cache "tenantA" 3000 ⟨"tokB", some 3600⟩
    let r3 := graphToken r2.cache "tenantA" 3541 ⟨"tokC", some 3600⟩
    r1.requests + r2.requests = 1 ∧ r2.token = r1.token ∧
    r3.requests = 1 ∧ r3.token = "tokC" :=
  c1_graph_token_cache.2.2 (fun _ => Option.none) "tenantA" 0 3000 3541
    ⟨"tokA", some 3600⟩ ⟨"tokB", some 3600⟩ ⟨"tokC", some 3600⟩
    rfl (by norm_num) (by norm_num)

/-- C2: a decoded payload with exactly one key, named `id`, makes the
worker call the record resolver with that id value before any call to
`send_email`; any other payload is passed to `send_email` directly as a
legacy record and the resolver is never called. -/
theorem c2_payload_dispatch :
    (∀ (payload : PyDict) (fetch : PyVal → Option PyDict) (v : PyVal),
      dictLookup payload "id" = some v → payload.length = 1 →
      ∃ rest, handleNotification payload fetch = .fetchRecord v :: rest ∧
        ∀ c ∈ rest, ∀ i, c ≠ WorkerCall.fetchRecord i) ∧
    (∀ (payload : PyDict) (fetch : PyVal → Option PyDict),
      dictContains payload "id" = false ∨ payload.length ≠ 1 →
      handleNotification payload fetch = [.sendRecord payload]) := by
  constructor
  · intro payload fetch v hv hlen
    have hcond : (dictContains payload "id" && payload.length == 1) = true := by
      simp [dictContains, hv, hlen]
    have hget : dictGetD payload "id" .none = v := by
      simp [dictGetD, hv]
    refine ⟨(match fetch v with
      | some r => if r.length == 0 then [] else [.sendRecord r]
      | Option.none => []), ?_, ?_⟩
    · rw [handleNotification, if_pos hcond, hget]
    · cases hf : fetch v with
      | none => simp
      | some r =>
          by_cases hr : r.length == 0
          · simp [hr]
          · simp [hr]
  · intro payload fetch h
    have hcond : (dictContains payload "id" && payload.length == 1) = false := by
      rcases h with h | h
      · simp [h]
      · simp [h]
    rw [handleNotification, if_neg (by simp [hcond])]

/-- C2 witness: the reference payload `{"id": "42"}` triggers a resolver
call with `"42"` first; the two-key payload `{"id": "42", "name": "X"}`
is sent directly with no resolver call. -/
theorem c2_payload_dispatch_witness :
    (∃ rest, handleNotification [("id", .str "42")]
        (fun _ => some [("name", .str "Jane")]) = .fetchRecord (.str "42") :: rest ∧
      ∀ c ∈ rest, ∀ i, c ≠ WorkerCall.fetchRecord i) ∧
    handleNotification [("id", .str "42"), ("name", .str "X")]
        (fun _ => some [("name", .str "Jane")]) =
      [.sendRecord [("id", .str "42"), ("name", .str "X")]] :=
  ⟨c2_payload_dispatch.1 [("id", .str "42")] (fun _ => some [("name", .str "Jane")])
      (.str "42") (by decide) (by decide),
    c2_payload_dispatch.2 [("id", .str "42"), ("name", .str "X")]
      (fun _ => some [("name", .str "Jane")]) (Or.inr (by decide))⟩

/-- C9: `fetch_full_record` returns `None` both when zero rows match and
when any exception occurs during the fetch — the two cases are
indistinguishable to the caller — and in both the worker drops the event
after the resolver call, sending nothing, while the notification loop
goes on handling every subsequent event. -/
theorem c9_fetch_failure_dropped :
    (∀ instance_name : String,
      fetchFullRecord instance_name .fetchFailed = Option.none ∧
      fetchFullRecord instance_name .noRow = Option.none ∧
      fetchFullRecord instance_name .fetchFailed =
        fetchFullRecord instance_name .noRow) ∧
    (∀ (payload : PyDict) (v : PyVal),
      dictLookup payload "id" = some v → payload.length = 1 →
      handleNotification payload (fun _ => Option.none) = [.fetchRecord v]) ∧
    (∀ (instance_name : String) (payload : PyDict) (resp : HttpResponse)
        (outcome : FetchOutcome),
      dictContains payload "id" = true → payload.length = 1 →
      fetchFullRecord instance_name outcome = Option.none →
      processNotification instance_name ⟨payload, outcome, resp⟩ =
        .skippedMissing) ∧
    (∀ (instance_name : String) (evs : List NotifyEvent),
      (processNotifies instance_name evs).length = evs.length) := by
  refine ⟨?_, ?_, ?_, ?_⟩
  · intro instance_name
    exact ⟨rfl, rfl, rfl⟩
  · intro payload v hv hlen
    have hcond : (dictContains payload "id" && payload.length == 1) = true := by
      simp [dictContains, hv, hlen]
    have hget : dictGetD payload "id" .none = v := by
      simp [dictGetD, hv]
    rw [handleNotification, if_pos hcond, hget]
  · intro instance_name payload resp outcome hid hlen hfetch
    have hcond : (dictContains payload "id" && payload.length == 1) = true := by
      simp [hid, hlen]
    rw [processNotification, if_pos hcond, hfetch]
  · intro instance_name evs
    simp [processNotifies]

/-- C9 witness: for the reference payload `{"id": "7"}` on Instance-1, a
failed fetch and a missing row both resolve to `None` and the event is
skipped. -/
theorem c9_fetch_failure_dropped_witness :
    fetchFullRecord "Instance-1" .fetchFailed =
      fetchFullRecord "Instance-1" .noRow ∧
    handleNotification [("id", .str "7")] (fun _ => Option.none) =
      [.fetchRecord (.str "7")] ∧
    processNotification "Instance-1"
        ⟨[("id", .str "7")], .fetchFailed, ⟨202, ""⟩⟩ = .skippedMissing :=
  ⟨(c9_fetch_failure_dropped.1 "Instance-1").2.2,
    c9_fetch_failure_dropped.2.1 [("id", .str "7")] (.str "7") (by decide) (by decide),
    c9_fetch_failure_dropped.2.2.1 "Instance-1" [("id", .str "7")] ⟨202, ""⟩
      .fetchFailed (by decide) (by decide) rfl⟩

/-- C4 counterexample: the claim says every response with a status other
than 202 raises a `SendError`, but a status-200 response is not 202 and
yet `send_email` raises nothing — `response.raise_for_status()` is a
no-op outside 400–599 — so the call returns as a success. -/
theorem c4_counterexample :
    sendEmailOutcome ⟨200, "unexpected"⟩ = .ok () ∧ (200 : Nat) ≠ 202 := by
  exact ⟨rfl, by decide⟩

/-- C4 (amended): status 202 is success with no retry; a status in
400–599 raises a `SendError` carrying the response status and body,
which the worker loop catches as a logged per-event outcome and keeps
processing subsequent events; a non-202 status outside 400–599 is only
logged — `raise_for_status` does not raise — and the call returns as a
success. -/
theorem c4_send_status_handling :
    (∀ resp : HttpResponse, resp.status = 202 →
      sendEmailOutcome resp = .ok ()) ∧
    (∀ resp : HttpResponse, 400 ≤ resp.status → resp.status < 600 →
      sendEmailOutcome resp = .error ⟨resp.status, resp.text⟩) ∧
    (∀ resp : HttpResponse, resp.status ≠ 202 →
      ¬(400 ≤ resp.status ∧ resp.status < 600) →
      sendEmailOutcome resp = .ok ()) ∧
    (∀ (instance_name : String) (payload : PyDict) (outcome : FetchOutcome)
        (resp : HttpResponse),
      dictContains payload "id" = false →
      400 ≤ resp.status → resp.status < 600 →
      processNotification instance_name ⟨payload, outcome, resp⟩ =
        .emailFailed ⟨resp.status, resp.text⟩) ∧
    (∀ (instance_name : String) (evs : List NotifyEvent),
      (processNotifies instance_name evs).length = evs.length) := by
  refine ⟨?_, ?_, ?_, ?_, ?_⟩
  · intro resp h
    simp [sendEmailOutcome, h]
  · intro resp h1 h2
    have h202 : (resp.status == 202) = false := by
      simp; omega
    have hrange : (400 ≤ resp.status && resp.status < 600) = true := by
      simp [h1, h2]
    rw [sendEmailOutcome, h202]
    simp [hrange]
  · intro resp h1 h2
    by_cases h202 : resp.status == 202
    · rw [sendEmailOutcome, if_pos h202]
    · have hrange : (400 ≤ resp.status && resp.status < 600) = false := by
        simp only [Bool.and_eq_false_iff]
        rcases Decidable.not_and_iff_or_not.mp h2 with h | h
        · exact Or.inl (by simp [h])
        · exact Or.inr (by simp [h])
      rw [sendEmailOutcome, if_neg (by simp_all), if_neg (by simp [hrange])]
  · intro instance_name payload outcome resp hid h1 h2
    have h202 : (resp.status == 202) = false := by
      simp; omega
    have hrange : (400 ≤ resp.status && resp.status < 600) = true := by
      simp [h1, h2]
    rw [processNotification, if_neg (by simp [hid])]
    rw [sendEmailOutcome, h202]
    simp [hrange]
  · intro instance_name evs
    simp [processNotifies]

/-- C4 witness: a 500 response yields a `SendError` with that status and
body, the worker logs it as a per-event outcome, and a batch of two
events is still processed in full. -/
theorem c4_send_status_handling_witness :
    sendEmailOutcome ⟨500, "boom"⟩ = .error ⟨500, "boom"⟩ ∧
    processNotification "Instance-1"
        ⟨[("name", .str "X")], .noRow, ⟨500, "boom"⟩⟩ =
      .emailFailed ⟨500, "boom"⟩ ∧
    (processNotifies "Instance-1"
      [⟨[("name", .str "X")], .noRow, ⟨500, "boom"⟩⟩,
       ⟨[("name", .str "Y")], .noRow, ⟨202, ""⟩⟩]).length = 2 :=
  ⟨c4_send_status_handling.2.1 ⟨500, "boom"⟩ (by decide) (by decide),
    c4_send_status_handling.2.2.2.1 "Instance-1" [("name", .str "X")] .noRow
      ⟨500, "boom"⟩ (by decide) (by decide) (by decide),
    c4_send_status_handling.2.2.2.2 "Instance-1"
      [⟨[("name", .str "X")], .noRow, ⟨500, "boom"⟩⟩,
       ⟨[("name", .str "Y")], .noRow, ⟨202, ""⟩⟩]⟩

/-- C6 counterexample: the outbound payload's `saveToSentItems` field is
the JSON string `"false"`, not the JSON boolean `false` the claim
states. -/
theorem c6_counterexample :
    (sendMailPayload "s" "b" (some "ops@example.com")).field "saveToSentItems" =
      some (.jstr "false") ∧
    Json.jstr "false" ≠ Json.jbool false :=
  ⟨rfl, fun h => Json.noConfusion h⟩

/-- C6 (amended): every outbound mail request is a bearer-authenticated
POST to the `sendMail` endpoint scoped to the tenant's sender address,
with body `{"message": {"subject": ..., "body": {"contentType": "Text",
"content": ...}, "toRecipients": [{"emailAddress": {"address": <tenant
recipient>}}]}, "saveToSentItems": "false"}` — the `saveToSentItems`
field being the JSON string `"false"`. -/
theorem c6_sendmail_request_shape (from_email to_email : Option String)
    (token : String) (record : PyDict) :
    buildSendMailRequest from_email to_email token record =
      { url := "https://graph.microsoft.com/v1.0/users/" ++ optFmt from_email
          ++ "/sendMail"
        authHeader := "Bearer " ++ token
        contentType := "application/json"
        body := .jobj [
          ("message", .jobj [
            ("subject", .jstr (composeEmail record).1),
            ("body", .jobj [("contentType", .jstr "Text"),
              ("content", .jstr (composeEmail record).2)]),
            ("toRecipients", .jarr [.jobj [("emailAddress",
              .jobj [("address", optJson to_email)])]])
          ]),
          ("saveToSentItems", .jstr "false")
        ] } := rfl

/-- C7: configuration loading aborts startup with an error listing the
missing names when any of instance 1's required variables is absent (or
when neither `DATABASE_URL` nor all four discrete DB variables are set);
otherwise it succeeds, and the returned list holds exactly the fully
configured instances — instance 1 always, instances 2 and 3 exactly when
complete (incomplete optional instances are skipped and loading
continues). -/
theorem c7_config_loading :
    (∀ env : Env, missingVars env INSTANCE_1_VARS ≠ [] →
      loadInstanceConfigs env =
        .error ("Missing required Instance 1 environment variables: "
          ++ String.intercalate ", " (missingVars env INSTANCE_1_VARS))) ∧
    (∀ env : Env, missingVars env INSTANCE_1_VARS = [] →
      optTruthy (env "DATABASE_URL") = false →
      missingVars env INSTANCE_1_DB_VARS ≠ [] →
      loadInstanceConfigs env =
        .error ("Instance 1: Either DATABASE_URL or individual DB vars required: "
          ++ String.intercalate ", " (missingVars env INSTANCE_1_DB_VARS))) ∧
    (∀ env : Env, missingVars env INSTANCE_1_VARS = [] →
      (optTruthy (env "DATABASE_URL") = true ∨
        missingVars env INSTANCE_1_DB_VARS = []) →
      loadInstanceConfigs env =
        .ok ([mkConfig1 env]
          ++ (if instance2Configured env then [mkConfig2 env] else [])
          ++ (if instance3Configured env then [mkConfig3 env] else []))) ∧
    (∀ (env : Env) (cfgs : List InstanceConfig),
      loadInstanceConfigs env = .ok cfgs →
      cfgs.map InstanceConfig.instance_name =
        "Instance-1" :: ((if instance2Configured env then ["Instance-2"] else [])
          ++ (if instance3Configured env then ["Instance-3"] else []))) := by
  have hok : ∀ env : Env, missingVars env INSTANCE_1_VARS = [] →
      (optTruthy (env "DATABASE_URL") = true ∨
        missingVars env INSTANCE_1_DB_VARS = []) →
      loadInstanceConfigs env =
        .ok ([mkConfig1 env]
          ++ (if instance2Configured env then [mkConfig2 env] else [])
          ++ (if instance3Configured env then [mkConfig3 env] else [])) := by
    intro env h1 h2
    rw [loadInstanceConfigs]
    rw [h1]
    have hdb : (!(optTruthy (env "DATABASE_URL"))
        && !(missingVars env INSTANCE_1_DB_VARS).isEmpty) = false := by
      rcases h2 with h | h
      · simp [h]
      · simp [h]
    simp only [List.isEmpty_nil, Bool.not_true, Bool.false_eq_true, if_false, hdb]
    by_cases h2c : instance2Configured env <;>
      by_cases h3c : instance3Configured env <;>
        simp [h2c, h3c]
  refine ⟨?_, ?_, hok, ?_⟩
  · intro env h
    rw [loadInstanceConfigs]
    have : (missingVars env INSTANCE_1_VARS).isEmpty = false := by
      simp [List.isEmpty_iff, h]
    rw [this]
    simp
  · intro env h1 h2 h3
    rw [loadInstanceConfigs, h1]
    have hdb : (!(optTruthy (env "DATABASE_URL"))
        && !(missingVars env INSTANCE_1_DB_VARS).isEmpty) = true := by
      simp [h2, List.isEmpty_iff, h3]
    simp only [List.isEmpty_nil, Bool.not_true, Bool.false_eq_true, if_false, hdb]
    simp
  · intro env cfgs hload
    by_cases h1 : missingVars env INSTANCE_1_VARS = []
    · by_cases h2 : optTruthy (env "DATABASE_URL") = true ∨
          missingVars env INSTANCE_1_DB_VARS = []
      · rw [hok env h1 h2] at hload
        cases hload
        by_cases h2c : instance2Configured env <;>
          by_cases h3c : instance3Configured env <;>
            simp [h2c, h3c, mkConfig1, mkConfig2, mkConfig3]
      · have hdbf : optTruthy (env "DATABASE_URL") = false := by
          rcases Bool.eq_false_or_eq_true (optTruthy (env "DATABASE_URL")) with h | h
          · exact absurd (Or.inl h) h2
          · exact h
        have hdbm : missingVars env INSTANCE_1_DB_VARS ≠ [] := by
          intro hc
          exact h2 (Or.inr hc)
        rw [loadInstanceConfigs, h1] at hload
        have hdb : (!(optTruthy (env "DATABASE_URL"))
            && !(missingVars env INSTANCE_1_DB_VARS).isEmpty) = true := by
          simp [hdbf, List.isEmpty_iff, hdbm]
        simp only [List.isEmpty_nil, Bool.not_true, Bool.false_eq_true, if_false,
          hdb] at hload
        simp at hload
    · rw [loadInstanceConfigs] at hload
      have : (missingVars env INSTANCE_1_VARS).isEmpty = false := by
        simp [List.isEmpty_iff, h1]
      rw [this] at hload
      simp at hload

/-- C7 witness: an environment missing `TENANT_ID` aborts with that name
in the error; a complete instance-1 environment (via `DATABASE_URL`)
with nothing configured for instances 2 and 3 loads exactly instance 1. -/
theorem c7_config_loading_witness :
    loadInstanceConfigs (fun v =>
        if v ∈ ["CLIENT_ID", "CLIENT_SECRET", "FROM_EMAIL", "TO_EMAIL"]
        then some "x" else Option.none) =
      .error "Missing required Instance 1 environment variables: TENANT_ID" ∧
    loadInstanceConfigs (fun v =>
        if v ∈ ["TENANT_ID", "CLIENT_ID", "CLIENT_SECRET", "FROM_EMAIL",
          "TO_EMAIL", "DATABASE_URL"] then some "x" else Option.none) =
      .ok [mkConfig1 (fun v =>
        if v ∈ ["TENANT_ID", "CLIENT_ID", "CLIENT_SECRET", "FROM_EMAIL",
          "TO_EMAIL", "DATABASE_URL"] then some "x" else Option.none)] := by
  constructor
  · exact c7_config_loading.1 _ (by decide)
  · have h := c7_config_loading.2.2.1 (fun v =>
        if v ∈ ["TENANT_ID", "CLIENT_ID", "CLIENT_SECRET", "FROM_EMAIL",
          "TO_EMAIL", "DATABASE_URL"] then some "x" else Option.none)
      (by decide) (Or.inl (by decide))
    rw [h]
    have h2 : instance2Configured (fun v =>
        if v ∈ ["TENANT_ID", "CLIENT_ID", "CLIENT_SECRET", "FROM_EMAIL",
          "TO_EMAIL", "DATABASE_URL"] then some "x" else Option.none) = false := by
      decide
    have h3 : instance3Configured (fun v =>
        if v ∈ ["TENANT_ID", "CLIENT_ID", "CLIENT_SECRET", "FROM_EMAIL",
          "TO_EMAIL", "DATABASE_URL"] then some "x" else Option.none) = false := by
      decide
    rw [h2, h3]
    simp

/-- C8 (claim is the intent; the code has a slip): the backoff branch of
the reconnect handler exists — a third consecutive increment would reach
the threshold and switch to capped exponential backoff — but because
`reconnect_attempts` is reset to 0 at the top of every outer-loop
iteration, the handler always sees a counter of 0, so consecutive
connection failures only ever take the below-threshold branch and the
exponential-backoff branch is never reached. -/
theorem c8_backoff_branch_unreachable :
    exceptHandler 2 10 = (0, 15, .expBackoff) ∧
    failureTrace 3 10 = [.gradualDelay, .gradualDelay, .gradualDelay] ∧
    (∀ (n : Nat) (d : ℚ),
      (failureTrace n d).contains RetryKind.expBackoff = false) := by
  have hmin : min ((10 : ℚ) * (3 / 2)) 60 = 15 := by
    rw [show (10 : ℚ) * (3 / 2) = 15 by norm_num]
    exact min_eq_left (by norm_num)
  refine ⟨by simp [exceptHandler, maxReconnectAttempts, hmin],
    by simp [failureTrace, exceptHandler, maxReconnectAttempts], ?_⟩
  intro n
  induction n with
  | zero => intro d; rfl
  | succ m ih =>
      intro d
      rw [failureTrace]
      have hstep : exceptHandler 0 d = (1, min (d + 5) 30, .gradualDelay) := by
        rw [exceptHandler]
        simp [maxReconnectAttempts]
      rw [hstep]
      simp only [List.contains_cons]
      rw [ih]
      decide

end RPMMailer
